import Mathlib

/-!
Shallow embedding of the capellix daemon's control-plane protocol
(crates/capellix): the `Fan` identity type, fan-speed validation, the
socket command/response types with their binary encodings and nom-style
parsers, the stream-framing codec `SocketCommandCodec`, the firmware
version gate, the fan-target file watcher's change handler, and the
command execution path shared by the TCP and UDP servers.

Bytes are modelled as `Nat` (in the source they are `u8`, hence < 256 by
type); 16-bit values carry explicit `% 256` / `/ 256` arithmetic where
they are split into little-endian bytes.
-/

namespace Capellix

/-! ## Fan identity (thread/pump_target.rs) -/

inductive Fan where
  | pump : Fan
  | fan (idx : Nat) : Fan
deriving DecidableEq, Repr

/-- `impl From<Fan> for u8`: Pump ↦ 0, Fan(idx) ↦ idx + 1. -/
def fanToU8 : Fan → Nat
  | .pump => 0
  | .fan idx => idx + 1

/-- `impl TryFrom<u8> for Fan`: 0 ↦ Pump, 1..=7 ↦ Fan(i-1), else error. -/
def fanTryFromU8 (i : Nat) : Option Fan :=
  if i = 0 then some .pump
  else if i ≤ 7 then some (.fan (i - 1))
  else none

/-- `impl FromStr for Fan`: the seven textual fan tokens, else error. -/
def fanFromStr (s : String) : Option Fan :=
  if s = "pump" then some .pump
  else if s = "fan1" then some (.fan 0)
  else if s = "fan2" then some (.fan 1)
  else if s = "fan3" then some (.fan 2)
  else if s = "fan4" then some (.fan 3)
  else if s = "fan5" then some (.fan 4)
  else if s = "fan6" then some (.fan 5)
  else none

/-! ## Fan speed validation and LED counts (hid/mod.rs) -/

/-- `validate_fan_speed`: clamp speeds above 100 down to 100. -/
def validate_fan_speed (speed : Nat) : Nat :=
  if speed > 100 then 100 else speed

def LED_COUNT_PUMP : Nat := 29
def LED_COUNT_FAN : Nat := 34
def LED_COUNT_TOTAL : Nat := LED_COUNT_PUMP + LED_COUNT_FAN * 6

/-- A color buffer: RGB triples (`[[u8; 3]; LED_COUNT_TOTAL]` in the
source; list length is constrained where it matters). -/
abbrev Colors := List (Nat × Nat × Nat)

/-! ## Socket commands (thread/socket/socket_command.rs) -/

def SOCKET_COMMAND_GET_COOLANT_TEMP : Nat := 0
def SOCKET_COMMAND_GET_PUMP_SPEED : Nat := 1
def SOCKET_COMMAND_SET_PUMP_SPEED : Nat := 2
def SOCKET_COMMAND_SET_COLORS : Nat := 3

inductive SocketCommand where
  | getCoolantTemp : SocketCommand
  | getPumpSpeed : SocketCommand
  | setFanTarget (fan : Fan) (speed : Nat) : SocketCommand
  | setColors (colors : Colors) : SocketCommand
deriving DecidableEq, Repr

/-- Flatten a list of RGB triples to consecutive bytes
(`colors.into_iter().flatten().collect()`). -/
def colorsBytes : Colors → List Nat
  | [] => []
  | t :: ts => t.1 :: t.2.1 :: t.2.2 :: colorsBytes ts

/-- `impl From<SocketCommand> for Vec<u8>`: the binary encoding.
A `u16` is emitted as its two little-endian bytes. -/
def socketCommandToBytes : SocketCommand → List Nat
  | .getCoolantTemp => [SOCKET_COMMAND_GET_COOLANT_TEMP]
  | .getPumpSpeed => [SOCKET_COMMAND_GET_PUMP_SPEED]
  | .setFanTarget fan speed =>
      [SOCKET_COMMAND_SET_PUMP_SPEED, fanToU8 fan, speed % 256, speed / 256 % 256]
  | .setColors colors => SOCKET_COMMAND_SET_COLORS :: colorsBytes colors

/-! nom-style byte parsers: a parser takes the input bytes and returns
`some (remaining_input, value)` on success, `none` on failure. -/

/-- `nom::bytes::complete::tag([t])`. -/
def tagByte (t : Nat) : List Nat → Option (List Nat)
  | b :: rest => if b = t then some rest else none
  | [] => none

/-- `nom::number::complete::u8`. -/
def parseByte : List Nat → Option (List Nat × Nat)
  | b :: rest => some (rest, b)
  | [] => none

/-- `nom::number::complete::le_u16`. -/
def le_u16 : List Nat → Option (List Nat × Nat)
  | lo :: hi :: rest => some (rest, lo + 256 * hi)
  | _ => none

/-- One RGB triple: `count(u8, 3)` mapped to an array. -/
def colorTripleBytes : List Nat → Option (List Nat × (Nat × Nat × Nat))
  | r :: g :: b :: rest => some (rest, (r, g, b))
  | _ => none

/-- `nom::multi::count(colorTriple, n)`. -/
def countColorTriples : Nat → List Nat → Option (List Nat × Colors)
  | 0, input => some (input, [])
  | n + 1, input =>
    match colorTripleBytes input with
    | some (rest, t) =>
      match countColorTriples n rest with
      | some (rest', ts) => some (rest', t :: ts)
      | none => none
    | none => none

def socket_command_get_coolant_temp_bytes (input : List Nat) :
    Option (List Nat × SocketCommand) :=
  match tagByte SOCKET_COMMAND_GET_COOLANT_TEMP input with
  | some rest => some (rest, .getCoolantTemp)
  | none => none

def socket_command_get_pump_speed_bytes (input : List Nat) :
    Option (List Nat × SocketCommand) :=
  match tagByte SOCKET_COMMAND_GET_PUMP_SPEED input with
  | some rest => some (rest, .getPumpSpeed)
  | none => none

def socket_command_set_fan_speed_bytes (input : List Nat) :
    Option (List Nat × SocketCommand) :=
  match tagByte SOCKET_COMMAND_SET_PUMP_SPEED input with
  | none => none
  | some rest =>
    match parseByte rest with
    | none => none
    | some (rest, fanByte) =>
      match fanTryFromU8 fanByte with
      | none => none
      | some fan =>
        match le_u16 rest with
        | none => none
        | some (rest, speed) => some (rest, .setFanTarget fan speed)

def socket_command_set_colors_bytes (input : List Nat) :
    Option (List Nat × SocketCommand) :=
  match tagByte SOCKET_COMMAND_SET_COLORS input with
  | none => none
  | some rest =>
    match countColorTriples LED_COUNT_TOTAL rest with
    | none => none
    | some (rest, colors) => some (rest, .setColors colors)

/-- `socket_command_bytes`: `alt` over the four parsers, in source order. -/
def socket_command_bytes (input : List Nat) : Option (List Nat × SocketCommand) :=
  match socket_command_set_colors_bytes input with
  | some r => some r
  | none =>
    match socket_command_set_fan_speed_bytes input with
    | some r => some r
    | none =>
      match socket_command_get_coolant_temp_bytes input with
      | some r => some r
      | none => socket_command_get_pump_speed_bytes input

/-! ## Socket responses (thread/socket/socket_response.rs) -/

inductive SocketResponse where
  | getCoolantTemp (temp : Nat) : SocketResponse
  | getPumpSpeed (speed : Nat) : SocketResponse
  | setPumpSpeed (success : Bool) : SocketResponse
  | setColors (success : Bool) : SocketResponse
deriving DecidableEq, Repr

/-- `impl From<SocketResponse> for Vec<u8>`. -/
def socketResponseToBytes : SocketResponse → List Nat
  | .getCoolantTemp temp =>
      [SOCKET_COMMAND_GET_COOLANT_TEMP, temp % 256, temp / 256 % 256]
  | .getPumpSpeed speed =>
      [SOCKET_COMMAND_GET_PUMP_SPEED, speed % 256, speed / 256 % 256]
  | .setPumpSpeed success =>
      [SOCKET_COMMAND_SET_PUMP_SPEED, if success then 1 else 0]
  | .setColors success =>
      [SOCKET_COMMAND_SET_COLORS, if success then 1 else 0]

def socket_response_get_coolant_temp_bytes (input : List Nat) :
    Option (List Nat × SocketResponse) :=
  match tagByte SOCKET_COMMAND_GET_COOLANT_TEMP input with
  | none => none
  | some rest =>
    match le_u16 rest with
    | none => none
    | some (rest, temp) => some (rest, .getCoolantTemp temp)

def socket_response_get_pump_speed_bytes (input : List Nat) :
    Option (List Nat × SocketResponse) :=
  match tagByte SOCKET_COMMAND_GET_PUMP_SPEED input with
  | none => none
  | some rest =>
    match le_u16 rest with
    | none => none
    | some (rest, temp) => some (rest, .getPumpSpeed temp)

def socket_response_set_pump_speed_bytes (input : List Nat) :
    Option (List Nat × SocketResponse) :=
  match tagByte SOCKET_COMMAND_SET_PUMP_SPEED input with
  | none => none
  | some rest =>
    match parseByte rest with
    | none => none
    | some (rest, success) => some (rest, .setPumpSpeed (success == 1))

def socket_response_set_colors_bytes (input : List Nat) :
    Option (List Nat × SocketResponse) :=
  match tagByte SOCKET_COMMAND_SET_COLORS input with
  | none => none
  | some rest =>
    match parseByte rest with
    | none => none
    | some (rest, success) => some (rest, .setColors (success == 1))

/-- `socket_response_bytes`: `alt` over the four response parsers. -/
def socket_response_bytes (input : List Nat) : Option (List Nat × SocketResponse) :=
  match socket_response_get_coolant_temp_bytes input with
  | some r => some r
  | none =>
    match socket_response_get_pump_speed_bytes input with
    | some r => some r
    | none =>
      match socket_response_set_pump_speed_bytes input with
      | some r => some r
      | none => socket_response_set_colors_bytes input

/-! ## Stream-framing codec (thread/socket/mod.rs, `SocketCommandCodec`) -/

/-- The decoder's accumulation buffer (`SocketCommandCodec { buf: Vec<u8> }`). -/
structure SocketCommandCodec where
  buf : List Nat
deriving DecidableEq, Repr

/-- The 4-byte command marker `C`,`P`,`L`,`X`. -/
def CPLX : List Nat := [67, 80, 76, 88]

/-- `buf.windows(4).enumerate().filter_map(...)`: indices of all marker
occurrences. -/
def markerPositions (l : List Nat) : List Nat :=
  (List.range (l.length - 3)).filter fun i => (l.drop i).take 4 = CPLX

/-- `SocketCommandCodec::decode`: append `src` to the accumulation buffer
(draining `src`), look for markers, attempt to parse the payload after
the first marker bounded by the next marker (or end of buffer).
Returns (new codec state, drained `src`, decoded command if any). -/
def decode (c : SocketCommandCodec) (src : List Nat) :
    SocketCommandCodec × List Nat × Option SocketCommand :=
  let buf := c.buf ++ src
  match markerPositions buf with
  | [] => (⟨buf⟩, [], none)
  | next_command :: next_commands =>
    let endPos :=
      match next_commands with
      | next :: _ => next
      | [] => buf.length
    let next_command_bytes := (buf.drop (next_command + 4)).take (endPos - (next_command + 4))
    match socket_command_bytes next_command_bytes with
    | some (input, command) =>
      let len := buf.length - input.length
      (⟨buf.drop len⟩, [], some command)
    | none => (⟨buf⟩, [], none)

/-- `SocketCommandCodec::decode_eof`: run `decode`; on no frame, a clean
return if the (already drained) `src` buffer is empty, a protocol error
otherwise. -/
def decode_eof (c : SocketCommandCodec) (src : List Nat) :
    Except String (SocketCommandCodec × List Nat × Option SocketCommand) :=
  match decode c src with
  | (c', src', some frame) => .ok (c', src', some frame)
  | (c', src', none) =>
    if src' = [] then .ok ({ c' with buf := [] }, src', none)
    else .error "bytes remaining on stream"

/-- The `FramedRead` drain loop: after a successful decode, keep calling
`decode` with no new bytes until it yields nothing. Fuel-indexed; each
successful decode consumes at least the 4 marker bytes, so fuel equal to
the buffer length always suffices. -/
def drainFrames : Nat → SocketCommandCodec → SocketCommandCodec × List SocketCommand
  | 0, c => (c, [])
  | fuel + 1, c =>
    match decode c [] with
    | (c', _, some cmd) =>
      let r := drainFrames fuel c'
      (r.1, cmd :: r.2)
    | (c', _, none) => (c', [])

/-- Feed one chunk of stream bytes to the codec, collecting every frame
the `FramedRead` loop would yield before reading more bytes. -/
def feedChunk (c : SocketCommandCodec) (chunk : List Nat) :
    SocketCommandCodec × List SocketCommand :=
  match decode c chunk with
  | (c', _, some cmd) =>
    let r := drainFrames c'.buf.length c'
    (r.1, cmd :: r.2)
  | (c', _, none) => (c', [])

/-- Feed a partition of the stream chunk by chunk, in order. -/
def feedChunks (c : SocketCommandCodec) : List (List Nat) → SocketCommandCodec × List SocketCommand
  | [] => (c, [])
  | chunk :: rest =>
    let r := feedChunk c chunk
    let r' := feedChunks r.1 rest
    (r'.1, r.2 ++ r'.2)

/-! ## Firmware gate (thread/capellix.rs, `Capellix::run_async`) -/

/-- The firmware version check performed after entering software mode and
before the main loop: field-wise comparison against baseline 2.10.219,
with the `--unrecognized-firmware` override applying only to the
"newer" branch. An `error` is returned from `run_async`, so the daemon
exits non-zero before entering the main loop. -/
def firmwareGate (major minor patch : Nat) (unrecognized_firmware : Bool) :
    Except String Unit :=
  if major < 2 ∨ minor < 10 ∨ patch < 219 then
    .error "Firmware versions prior to 2.10.219 are not supported."
  else if unrecognized_firmware = false ∧ (major > 2 ∨ minor > 10 ∨ patch > 219) then
    .error "Expected firmware version 2.10.219, stopping."
  else
    .ok ()

/-! ## Shared state and command execution (thread/capellix.rs,
thread/socket/socket_command.rs) -/

structure SharedState where
  coolant_temp : Nat
  pump_speed : Nat
  fan_targets : List Nat
deriving DecidableEq, Repr

/-- The observable effects of `SocketCommand::run`: the byte slices
written to the reply sink, the messages sent on the fan-target channel,
and the color buffer published on the watch channel. -/
structure RunEffects where
  sinkWrites : List (List Nat)
  fanMsgs : List (Fan × Nat)
  colorMsg : Option Colors
deriving DecidableEq, Repr

/-- `SocketCommand::run`: execute one command against the shared state.
`chanOk` models whether the orchestrator's channel send succeeds; on a
failed send the `?` operator propagates the error before any reply byte
is written. -/
def SocketCommand.run (cmd : SocketCommand) (state : SharedState) (chanOk : Bool) :
    Except Unit RunEffects :=
  match cmd with
  | .getCoolantTemp =>
      .ok ⟨[[0, state.coolant_temp % 256, state.coolant_temp / 256 % 256]], [], none⟩
  | .getPumpSpeed =>
      .ok ⟨[[1, state.pump_speed % 256, state.pump_speed / 256 % 256]], [], none⟩
  | .setFanTarget fan speed =>
      if chanOk then .ok ⟨[[1]], [(fan, validate_fan_speed speed)], none⟩
      else .error ()
  | .setColors colors =>
      if chanOk then .ok ⟨[[1]], [], some colors⟩
      else .error ()

/-- The UDP branch of `ServerThread::run`: the decoded command is run
against the shared state with a freshly created `vec![]` as the reply
sink; that vector is dropped when the call returns, so the second
component — the bytes that reach the sending address — is always `[]`. -/
def ServerThread.handleUdpPacket (cmd : SocketCommand) (state : SharedState)
    (chanOk : Bool) : Except Unit (RunEffects × List Nat) :=
  match SocketCommand.run cmd state chanOk with
  | .ok effects => .ok (effects, [])
  | .error e => .error e

/-! ## Fan target watcher (thread/pump_target.rs, `FanTargetThread::run`) -/

/-- What the watcher's `on_change` closure does after reading the file. -/
inductive FanTargetAction where
  | emit (fan : Fan) (speed : Nat) : FanTargetAction
  | resetFile : FanTargetAction
deriving DecidableEq, Repr

/-- `strip_suffix('\n').unwrap_or(..)`: drop one trailing newline. -/
def stripNewlineSuffix (s : List Char) : List Char :=
  if s.getLast? = some '\n' then s.dropLast else s

/-- Digit-string value (base 10, ASCII digits). -/
def digitsVal (ds : List Char) : Nat :=
  ds.foldl (fun acc c => acc * 10 + (c.toNat - 48)) 0

/-- Rust `str::parse::<u16>()`: optional leading `+`, then one or more
ASCII digits, value at most 65535. -/
def parseU16Rust (s : List Char) : Option Nat :=
  let ds := match s with
    | '+' :: rest => rest
    | _ => s
  if ds.isEmpty then none
  else if ds.all Char.isDigit then
    let v := digitsVal ds
    if v ≤ 65535 then some v else none
  else none

/-- The body of the watcher's `on_change`: strip a trailing newline,
parse as `u16`; on success validate (clamp) and emit `(fan, speed)` on
the channel, on failure rewrite the file with the default `"100\n"`. -/
def fanTargetOnChange (fan : Fan) (content : List Char) : FanTargetAction :=
  match parseU16Rust (stripNewlineSuffix content) with
  | some speed => .emit fan (validate_fan_speed speed)
  | none => .resetFile

/-! ## Textual command parsers (thread/socket/socket_command.rs, `*_str`)

The outcome type distinguishes a successful parse, a nom parse error,
and a Rust panic (`copy_from_slice` aborts the thread when the slice
lengths differ; nom's `alt` does not catch panics). -/

inductive StrParse where
  | done (rest : List Char) (cmd : SocketCommand) : StrParse
  | err : StrParse
  | panicked : StrParse
deriving DecidableEq, Repr

/-- `nom::bytes::complete::tag(lit)` over chars. -/
def stripLit : List Char → List Char → Option (List Char)
  | [], input => some input
  | _ :: _, [] => none
  | c :: cs, d :: ds => if c = d then stripLit cs ds else none

/-- Maximal nonempty run of characters satisfying `p`:
returns (matched, rest); fails if the run is empty. -/
def span1 (p : Char → Bool) (input : List Char) : Option (List Char × List Char) :=
  let t := input.takeWhile p
  if t.isEmpty then none else some (t, input.drop t.length)

/-- `nom::character::complete::space1`: one or more spaces/tabs. -/
def space1 (input : List Char) : Option (List Char) :=
  match span1 (fun c => c == ' ' || c == '\t') input with
  | some (_, rest) => some rest
  | none => none

/-- `preceded(space1, recognize(many1(one_of "0123456789")))` followed by
`map_res(.., str::parse::<u8>)`: a space-preceded decimal `u8`. -/
def colorComponentStr (input : List Char) : Option (List Char × Nat) :=
  match space1 input with
  | none => none
  | some rest =>
    match span1 Char.isDigit rest with
    | none => none
    | some (ds, rest') =>
      let v := digitsVal ds
      if v ≤ 255 then some (rest', v) else none

/-- `count(colorComponent, 3)`: one RGB triple. -/
def colorTripleStr (input : List Char) : Option (List Char × (Nat × Nat × Nat)) :=
  match colorComponentStr input with
  | none => none
  | some (rest, r) =>
    match colorComponentStr rest with
    | none => none
    | some (rest, g) =>
      match colorComponentStr rest with
      | none => none
      | some (rest, b) => some (rest, (r, g, b))

/-- `many0(colorTriple)`: as many complete triples as parse (fuel-indexed;
each triple consumes at least six characters, so fuel equal to the input
length suffices). -/
def manyColorTriplesStr : Nat → List Char → List Char × Colors
  | 0, input => (input, [])
  | fuel + 1, input =>
    match colorTripleStr input with
    | none => (input, [])
    | some (rest, t) =>
      let r := manyColorTriplesStr fuel rest
      (r.1, t :: r.2)

/-- `socket_command_set_colors_str`: tag `"set-colors"`, collect triples,
then `colors.copy_from_slice(&buf)` — which panics unless exactly
`LED_COUNT_TOTAL` triples were parsed. -/
def socket_command_set_colors_str (input : List Char) : StrParse :=
  match stripLit "set-colors".toList input with
  | none => .err
  | some rest =>
    let r := manyColorTriplesStr rest.length rest
    if r.2.length = LED_COUNT_TOTAL then .done r.1 (.setColors r.2)
    else .panicked

/-- `socket_command_set_pump_speed_str`: tag `"set-fan-target"`, a
space-preceded alphanumeric fan token (`map_res(.., Fan::from_str)`),
and a space-preceded decimal speed (`map_res(.., str::parse::<u16>)`). -/
def socket_command_set_pump_speed_str (input : List Char) : StrParse :=
  match stripLit "set-fan-target".toList input with
  | none => .err
  | some rest =>
    match space1 rest with
    | none => .err
    | some rest =>
      match span1 Char.isAlphanum rest with
      | none => .err
      | some (tok, rest) =>
        match fanFromStr (String.mk tok) with
        | none => .err
        | some fan =>
          match space1 rest with
          | none => .err
          | some rest =>
            match span1 Char.isDigit rest with
            | none => .err
            | some (ds, rest) =>
              let v := digitsVal ds
              if v ≤ 65535 then .done rest (.setFanTarget fan v)
              else .err

def socket_command_get_coolant_temp_str (input : List Char) : StrParse :=
  match stripLit "get-coolant-temp".toList input with
  | none => .err
  | some rest => .done rest .getCoolantTemp

def socket_command_get_pump_speed_str (input : List Char) : StrParse :=
  match stripLit "get-pump-speed".toList input with
  | none => .err
  | some rest => .done rest .getPumpSpeed

/-- `socket_command_str`: `alt` over the four textual parsers in source
order; a parse error falls through to the next alternative, while a
success or a panic propagates. -/
def socket_command_str (input : List Char) : StrParse :=
  match socket_command_set_colors_str input with
  | .err =>
    match socket_command_set_pump_speed_str input with
    | .err =>
      match socket_command_get_coolant_temp_str input with
      | .err => socket_command_get_pump_speed_str input
      | r => r
    | r => r
  | r => r

/-! ## Helper lemmas -/

/-- `decode` drains `src` completely in every branch (the source moves all
of `src` into the accumulation buffer with `src.split_to(src.len())`
before doing anything else). -/
theorem decode_src_drained (c : SocketCommandCodec) (src : List Nat) :
    (decode c src).2.1 = [] := by
  dsimp only [decode]
  split
  · rfl
  · split
    · rfl
    · rfl

/-- A fan whose integer form is in range decodes back to itself. -/
theorem fanToU8_tryFromU8 (f : Fan) (hf : fanToU8 f ≤ 7) :
    fanTryFromU8 (fanToU8 f) = some f := by
  cases f with
  | pump => rfl
  | fan idx =>
    simp only [fanToU8] at hf ⊢
    simp [fanTryFromU8, Nat.succ_ne_zero, hf]

/-- Parsing `n` color triples from the flattened bytes of `n` triples
followed by `rest` yields exactly those triples and leaves `rest`. -/
theorem countColorTriples_colorsBytes (ts : Colors) (rest : List Nat) :
    countColorTriples ts.length (colorsBytes ts ++ rest) = some (rest, ts) := by
  induction ts with
  | nil => rfl
  | cons t ts ih =>
    simp [colorsBytes, countColorTriples, colorTripleBytes, ih]

/-! ## Claim theorems -/

/-- Claim C1: chunk-size independence of the Command Codec fails. The
stream `CPLX 0x00 CPLX 0x01` fed as one chunk decodes to only
`[GetCoolantTemp]` — the consumed-length computation
`buf.len() - input.len()` also discards the buffered second command —
while feeding the same bytes in two chunks decodes both commands. -/
theorem C1_chunk_size_dependence :
    ([67, 80, 76, 88, 0] ++ [67, 80, 76, 88, 1] =
      ([67, 80, 76, 88, 0, 67, 80, 76, 88, 1] : List Nat)) ∧
    (feedChunks ⟨[]⟩ [[67, 80, 76, 88, 0, 67, 80, 76, 88, 1]]).2 =
      [SocketCommand.getCoolantTemp] ∧
    (feedChunks ⟨[]⟩ [[67, 80, 76, 88, 0], [67, 80, 76, 88, 1]]).2 =
      [SocketCommand.getCoolantTemp, SocketCommand.getPumpSpeed] ∧
    [SocketCommand.getCoolantTemp] ≠
      [SocketCommand.getCoolantTemp, SocketCommand.getPumpSpeed] := by
  refine ⟨rfl, by decide, by decide, by decide⟩

/-- Claim C2: when `decode` yields no command it discards nothing — the
accumulation buffer afterwards is exactly the old buffer plus the new
chunk; and concretely, a marker followed by the incomplete
`SetFanTarget` payload `[2, 1, 50]` yields nothing and keeps every byte,
then yields exactly that one command once the missing byte arrives. -/
theorem C2_no_discard_until_complete (c : SocketCommandCodec) (src : List Nat)
    (h : (decode c src).2.2 = none) :
    (decode c src).1.buf = c.buf ++ src ∧
    feedChunks ⟨[]⟩ [[67, 80, 76, 88, 2, 1, 50]] =
      (⟨[67, 80, 76, 88, 2, 1, 50]⟩, []) ∧
    feedChunks ⟨[]⟩ [[67, 80, 76, 88, 2, 1, 50], [0]] =
      (⟨[]⟩, [SocketCommand.setFanTarget (.fan 0) 50]) := by
  refine ⟨?_, by decide, by decide⟩
  dsimp only [decode] at h ⊢
  split at h
  · rfl
  · split at h
    · exact absurd h (by simp)
    · rename_i hm hp
      simp_all

theorem C2_no_discard_until_complete_witness :
    (decode ⟨[]⟩ [67, 80, 76, 88, 2, 1, 50]).1.buf =
      [] ++ [67, 80, 76, 88, 2, 1, 50] ∧
    feedChunks ⟨[]⟩ [[67, 80, 76, 88, 2, 1, 50]] =
      (⟨[67, 80, 76, 88, 2, 1, 50]⟩, []) ∧
    feedChunks ⟨[]⟩ [[67, 80, 76, 88, 2, 1, 50], [0]] =
      (⟨[]⟩, [SocketCommand.setFanTarget (.fan 0) 50]) :=
  C2_no_discard_until_complete ⟨[]⟩ [67, 80, 76, 88, 2, 1, 50] (by decide)

/-- Claim C3: at end-of-stream the "bytes remaining on stream" protocol
error is unreachable: `decode` has already drained `src`, so the
emptiness test `buf.is_empty()` always passes and `decode_eof` always
returns cleanly — even when unconsumed bytes remain in the accumulation
buffer, as with the truncated marker `[67, 80]`, which is silently
cleared instead of reported. -/
theorem C3_eof_error_unreachable :
    (∀ (c : SocketCommandCodec) (src : List Nat),
      ∃ r, decode_eof c src = .ok r) ∧
    decode_eof ⟨[67, 80]⟩ [] = .ok (⟨[]⟩, [], none) := by
  refine ⟨?_, by rfl⟩
  intro c src
  have h := decode_src_drained c src
  rcases hd : decode c src with ⟨c', src', r⟩
  rw [hd] at h
  simp only at h
  subst h
  unfold decode_eof
  rw [hd]
  cases r with
  | some frame => exact ⟨_, rfl⟩
  | none => exact ⟨(⟨[]⟩, [], none), by simp⟩

/-- Stated from the spec's words, for comparison with the code: a version
strictly above the 2.10.219 baseline in lexicographic version order. -/
def specVersionAboveBaseline (major minor patch : Nat) : Prop :=
  2 < major ∨ (major = 2 ∧ 10 < minor) ∨ (major = 2 ∧ minor = 10 ∧ 219 < patch)

/-- Claim C4 counterexample: version 3.0.0 is above the 2.10.219 baseline,
yet even with the accept-newer-firmware override set the gate rejects it
— the field-wise test `minor < 10` fires on `0 < 10` — so the claim that
every version above the baseline passes when the flag is set is false. -/
theorem C4_above_baseline_rejected_counterexample :
    specVersionAboveBaseline 3 0 0 ∧
    firmwareGate 3 0 0 true =
      .error "Firmware versions prior to 2.10.219 are not supported." :=
  ⟨by simp only [specVersionAboveBaseline]; omega, by rfl⟩

/-- Claim C4 (amended): the gate rejects, regardless of the flag, every
version with a field below its baseline counterpart (major < 2 or
minor < 10 or patch < 219); among versions with all three fields at
least the baseline, any field above baseline is rejected when the flag
is unset and accepted when it is set; exactly 2.10.219 passes without
the flag; and 2.10.220 without the flag errors before the main loop. -/
theorem C4_firmware_gate_fieldwise (major minor patch : Nat) (flag : Bool) :
    ((major < 2 ∨ minor < 10 ∨ patch < 219) →
      firmwareGate major minor patch flag =
        .error "Firmware versions prior to 2.10.219 are not supported.") ∧
    ((2 ≤ major ∧ 10 ≤ minor ∧ 219 ≤ patch) →
      (2 < major ∨ 10 < minor ∨ 219 < patch) →
      firmwareGate major minor patch false =
        .error "Expected firmware version 2.10.219, stopping.") ∧
    ((2 ≤ major ∧ 10 ≤ minor ∧ 219 ≤ patch) →
      firmwareGate major minor patch true = .ok ()) ∧
    firmwareGate 2 10 219 false = .ok () ∧
    firmwareGate 2 10 220 false =
      .error "Expected firmware version 2.10.219, stopping." := by
  refine ⟨?_, ?_, ?_, rfl, rfl⟩
  · intro h
    simp only [firmwareGate]
    rw [if_pos h]
  · rintro ⟨h1, h2, h3⟩ hgt
    unfold firmwareGate
    rw [if_neg (by omega), if_pos ⟨rfl, hgt⟩]
  · rintro ⟨h1, h2, h3⟩
    unfold firmwareGate
    rw [if_neg (by omega), if_neg (by simp)]

theorem C4_firmware_gate_fieldwise_witness :
    firmwareGate 2 10 220 false =
      .error "Expected firmware version 2.10.219, stopping." ∧
    firmwareGate 3 11 220 true = .ok () :=
  ⟨(C4_firmware_gate_fieldwise 2 10 220 false).2.1 (by omega) (by omega),
   (C4_firmware_gate_fieldwise 3 11 220 true).2.2.1 (by omega)⟩

/-- Claim C5 counterexample: a `GetCoolantTemp` datagram executed on the
UDP path produces the reply slice `[0, 56, 1]` (coolant temp 312), but
the bytes that reach the sending address are `[]` — the reply sink is a
fresh `vec![]` that is dropped — so the claim that reply bytes are
written back to the sender is false. -/
theorem C5_udp_reply_discarded_counterexample :
    ServerThread.handleUdpPacket .getCoolantTemp
        ⟨312, 2268, List.replicate 7 50⟩ true =
      .ok (⟨[[0, 56, 1]], [], none⟩, []) ∧
    ([0, 56, 1] : List Nat) ≠ [] :=
  ⟨rfl, by decide⟩

/-- Claim C5 (amended): every UDP datagram command that executes
successfully is run against the shared state with no per-sender session
state — exactly the effects of `SocketCommand::run` — but its reply
bytes are written to a local buffer that is discarded, so nothing is
sent back to the sending address. -/
theorem C5_udp_executes_but_discards_reply (cmd : SocketCommand)
    (state : SharedState) (chanOk : Bool) (effects : RunEffects)
    (sent : List Nat)
    (h : ServerThread.handleUdpPacket cmd state chanOk = .ok (effects, sent)) :
    sent = [] ∧ SocketCommand.run cmd state chanOk = .ok effects := by
  unfold ServerThread.handleUdpPacket at h
  rcases hr : SocketCommand.run cmd state chanOk with e | eff
  · rw [hr] at h
    exact absurd h (by simp)
  · rw [hr] at h
    simp only [Except.ok.injEq, Prod.mk.injEq] at h
    exact ⟨h.2.symm, by rw [h.1]⟩

theorem C5_udp_executes_but_discards_reply_witness :
    ([] : List Nat) = [] ∧
    SocketCommand.run .getCoolantTemp ⟨312, 2268, []⟩ true =
      .ok ⟨[[0, 56, 1]], [], none⟩ :=
  C5_udp_executes_but_discards_reply .getCoolantTemp ⟨312, 2268, []⟩ true
    ⟨[[0, 56, 1]], [], none⟩ [] (by rfl)

/-- Claim C6: the textual `set-colors` parser does not reject a line whose
number of color triples differs from the LED count — it panics:
`colors.copy_from_slice(&buf)` aborts when only one triple was parsed
instead of 233. Well-formed textual commands still parse. -/
theorem C6_set_colors_str_panics :
    socket_command_str (String.toList "set-colors 1 2 3") = .panicked ∧
    socket_command_str (String.toList "get-coolant-temp") =
      .done [] .getCoolantTemp ∧
    socket_command_str (String.toList "set-fan-target pump 50") =
      .done [] (.setFanTarget .pump 50) :=
  ⟨by decide, by decide, by decide⟩

/-- Claim C7: a requested fan speed above 100 is clamped to exactly 100 on
both the socket `SetFanTarget` path and the fan-target-file watcher
path, speeds of at most 100 pass through unchanged, and file content
`"150\n"` makes the watcher emit `(fan, 100)`. -/
theorem C7_fan_speed_clamped (fan : Fan) (state : SharedState)
    (content : List Char) (speed : Nat)
    (hp : parseU16Rust (stripNewlineSuffix content) = some speed) :
    (100 < speed →
      SocketCommand.run (.setFanTarget fan speed) state true =
        .ok ⟨[[1]], [(fan, 100)], none⟩ ∧
      fanTargetOnChange fan content = .emit fan 100) ∧
    (speed ≤ 100 →
      SocketCommand.run (.setFanTarget fan speed) state true =
        .ok ⟨[[1]], [(fan, speed)], none⟩ ∧
      fanTargetOnChange fan content = .emit fan speed) ∧
    fanTargetOnChange fan (String.toList "150\n") = .emit fan 100 := by
  refine ⟨?_, ?_, rfl⟩
  · intro hgt
    have hv : validate_fan_speed speed = 100 := by
      simp [validate_fan_speed, hgt]
    exact ⟨by simp [SocketCommand.run, hv], by simp [fanTargetOnChange, hp, hv]⟩
  · intro hle
    have hv : validate_fan_speed speed = speed := by
      simp [validate_fan_speed]
      omega
    exact ⟨by simp [SocketCommand.run, hv], by simp [fanTargetOnChange, hp, hv]⟩

theorem C7_fan_speed_clamped_witness :
    SocketCommand.run (.setFanTarget .pump 150) ⟨312, 2268, []⟩ true =
      .ok ⟨[[1]], [(.pump, 100)], none⟩ ∧
    fanTargetOnChange .pump (String.toList "150\n") = .emit .pump 100 :=
  (C7_fan_speed_clamped .pump ⟨312, 2268, []⟩ (String.toList "150\n") 150
    (by decide)).1 (by omega)

/-- Claim C8: `Fan` integer conversion is a bijection on 0..=7 (round-trip
identity and injectivity) and errors on 8 and above; string conversion
accepts exactly the seven tokens `pump`, `fan1`..`fan6` and errors on
every other string — no silent clamping anywhere. -/
theorem C8_fan_conversions :
    (∀ i : Nat, i ≤ 7 → ∃ f, fanTryFromU8 i = some f ∧ fanToU8 f = i) ∧
    (∀ i j : Nat, i ≤ 7 → j ≤ 7 → fanTryFromU8 i = fanTryFromU8 j → i = j) ∧
    (∀ i : Nat, 8 ≤ i → fanTryFromU8 i = none) ∧
    (fanFromStr "pump" = some .pump ∧ fanFromStr "fan1" = some (.fan 0) ∧
      fanFromStr "fan2" = some (.fan 1) ∧ fanFromStr "fan3" = some (.fan 2) ∧
      fanFromStr "fan4" = some (.fan 3) ∧ fanFromStr "fan5" = some (.fan 4) ∧
      fanFromStr "fan6" = some (.fan 5)) ∧
    (∀ s : String,
      s ∉ (["pump", "fan1", "fan2", "fan3", "fan4", "fan5", "fan6"] : List String) →
      fanFromStr s = none) := by
  have hrt : ∀ i : Nat, i ≤ 7 → ∃ f, fanTryFromU8 i = some f ∧ fanToU8 f = i := by
    intro i hi
    by_cases h0 : i = 0
    · exact ⟨.pump, by simp [fanTryFromU8, h0], by simp [fanToU8, h0]⟩
    · refine ⟨.fan (i - 1), ?_, ?_⟩
      · simp [fanTryFromU8, h0, hi]
      · simp only [fanToU8]
        omega
  refine ⟨hrt, ?_, ?_, ⟨rfl, rfl, rfl, rfl, rfl, rfl, rfl⟩, ?_⟩
  · intro i j hi hj hij
    obtain ⟨fi, hfi, hfi'⟩ := hrt i hi
    obtain ⟨fj, hfj, hfj'⟩ := hrt j hj
    rw [hfi, hfj] at hij
    rw [← hfi', ← hfj', Option.some_inj.mp hij]
  · intro i hi
    simp only [fanTryFromU8]
    rw [if_neg (by omega), if_neg (by omega)]
  · intro s hs
    simp only [List.mem_cons, List.mem_singleton, not_or] at hs
    obtain ⟨n1, n2, n3, n4, n5, n6, n7, -⟩ := hs
    simp [fanFromStr, n1, n2, n3, n4, n5, n6, n7]

theorem C8_fan_conversions_witness :
    (∃ f, fanTryFromU8 7 = some f ∧ fanToU8 f = 7) ∧
    fanTryFromU8 8 = none ∧
    fanFromStr "fan7" = none :=
  ⟨C8_fan_conversions.1 7 (by omega),
   C8_fan_conversions.2.2.1 8 (by omega),
   C8_fan_conversions.2.2.2.2 "fan7" (by decide)⟩

/-- Claim C9: binary encode → decode round-trips to an identical value for
every command variant (with an in-range fan byte, a 16-bit speed, and a
full-LED-count color buffer) and for every response variant. -/
theorem C9_encode_decode_roundtrip :
    (socket_command_bytes (socketCommandToBytes .getCoolantTemp) =
      some ([], .getCoolantTemp)) ∧
    (socket_command_bytes (socketCommandToBytes .getPumpSpeed) =
      some ([], .getPumpSpeed)) ∧
    (∀ (fan : Fan) (speed : Nat), fanToU8 fan ≤ 7 → speed < 65536 →
      socket_command_bytes (socketCommandToBytes (.setFanTarget fan speed)) =
        some ([], .setFanTarget fan speed)) ∧
    (∀ colors : Colors, colors.length = LED_COUNT_TOTAL →
      socket_command_bytes (socketCommandToBytes (.setColors colors)) =
        some ([], .setColors colors)) ∧
    (∀ temp : Nat, temp < 65536 →
      socket_response_bytes (socketResponseToBytes (.getCoolantTemp temp)) =
        some ([], .getCoolantTemp temp)) ∧
    (∀ speed : Nat, speed < 65536 →
      socket_response_bytes (socketResponseToBytes (.getPumpSpeed speed)) =
        some ([], .getPumpSpeed speed)) ∧
    (∀ success : Bool,
      socket_response_bytes (socketResponseToBytes (.setPumpSpeed success)) =
        some ([], .setPumpSpeed success)) ∧
    (∀ success : Bool,
      socket_response_bytes (socketResponseToBytes (.setColors success)) =
        some ([], .setColors success)) := by
  have hle : ∀ v : Nat, v < 65536 → v % 256 + 256 * (v / 256 % 256) = v := by
    intro v hv
    have : v / 256 < 256 := by omega
    rw [Nat.mod_eq_of_lt this]
    omega
  refine ⟨rfl, rfl, ?_, ?_, ?_, ?_, ?_, ?_⟩
  · intro fan speed hf hs
    have hfan := fanToU8_tryFromU8 fan hf
    simp [socketCommandToBytes, socket_command_bytes,
      socket_command_set_colors_bytes, socket_command_set_fan_speed_bytes,
      tagByte, parseByte, le_u16, hfan, SOCKET_COMMAND_SET_COLORS,
      SOCKET_COMMAND_SET_PUMP_SPEED, hle speed hs]
  · intro colors hlen
    have h := countColorTriples_colorsBytes colors []
    rw [List.append_nil] at h
    simp [socketCommandToBytes, socket_command_bytes,
      socket_command_set_colors_bytes, tagByte, SOCKET_COMMAND_SET_COLORS,
      ← hlen, h]
  · intro temp ht
    simp [socketResponseToBytes, socket_response_bytes,
      socket_response_get_coolant_temp_bytes, tagByte, le_u16,
      SOCKET_COMMAND_GET_COOLANT_TEMP, hle temp ht]
  · intro speed hs
    simp [socketResponseToBytes, socket_response_bytes,
      socket_response_get_coolant_temp_bytes,
      socket_response_get_pump_speed_bytes, tagByte, le_u16,
      SOCKET_COMMAND_GET_COOLANT_TEMP, SOCKET_COMMAND_GET_PUMP_SPEED,
      hle speed hs]
  · intro success
    cases success <;> rfl
  · intro success
    cases success <;> rfl

theorem C9_encode_decode_roundtrip_witness :
    (socket_command_bytes (socketCommandToBytes
        (.setColors (List.replicate LED_COUNT_TOTAL (10, 20, 30)))) =
      some ([], .setColors (List.replicate LED_COUNT_TOTAL (10, 20, 30)))) ∧
    (socket_command_bytes (socketCommandToBytes (.setFanTarget (.fan 5) 65535)) =
      some ([], .setFanTarget (.fan 5) 65535)) ∧
    (socket_response_bytes (socketResponseToBytes (.getCoolantTemp 312)) =
      some ([], .getCoolantTemp 312)) :=
  ⟨C9_encode_decode_roundtrip.2.2.2.1 (List.replicate LED_COUNT_TOTAL (10, 20, 30))
      (by simp),
   C9_encode_decode_roundtrip.2.2.1 (.fan 5) 65535 (by decide) (by omega),
   C9_encode_decode_roundtrip.2.2.2.2.1 312 (by omega)⟩

/-- Claim C10: the server never writes a failure success-flag: any reply a
successfully executed `SetFanTarget` or `SetColors` writes is exactly
the single byte 1, and when the channel send fails the execution
terminates with an error having written no reply bytes, so a reply byte
0 is never sent. -/
theorem C10_no_failure_reply_byte (state : SharedState) (fan : Fan)
    (speed : Nat) (colors : Colors) (chanOk : Bool) :
    (∀ effects : RunEffects,
      SocketCommand.run (.setFanTarget fan speed) state chanOk = .ok effects →
      effects.sinkWrites = [[1]]) ∧
    (∀ effects : RunEffects,
      SocketCommand.run (.setColors colors) state chanOk = .ok effects →
      effects.sinkWrites = [[1]]) ∧
    (chanOk = false →
      SocketCommand.run (.setFanTarget fan speed) state chanOk = .error () ∧
      SocketCommand.run (.setColors colors) state chanOk = .error ()) := by
  cases chanOk with
  | false =>
    refine ⟨?_, ?_, fun _ => ⟨rfl, rfl⟩⟩ <;>
      · intro effects h
        exact absurd h (by simp [SocketCommand.run])
  | true =>
    refine ⟨?_, ?_, fun hf => by simp at hf⟩ <;>
      · intro effects h
        simp only [SocketCommand.run, if_pos, Except.ok.injEq] at h
        rw [← h]

theorem C10_no_failure_reply_byte_witness :
    RunEffects.sinkWrites ⟨[[1]], [(.pump, 100)], none⟩ = [[1]] :=
  (C10_no_failure_reply_byte ⟨312, 2268, []⟩ .pump 150 [] true).1
    ⟨[[1]], [(.pump, 100)], none⟩ (by rfl)

end Capellix
